import Mathlib

/-!
Verification development for the conversational task-tracking engine.

The Python sources are shallowly embedded as executable Lean definitions:
  * namespace `DB`     — the SQLite task store (`task_database.py`);
  * namespace `Trk`    — the YAML-backed tracker store and the evening
    reflection session machine (`tracker.py`);
  * namespace `Agents` — the deletion handler and the orchestrator's
    deterministic routing skeleton (`enhanced_ai_agents.py`);
  * namespace `Notif`  — the daily-digest job (`notifications.py`).

File I/O (SQLite and YAML) is modelled as explicit state passing over
association lists, timestamps and generated LLM texts are passed as
parameters, and machine integers are `Int`/`Nat` (no overflow is relevant
at these magnitudes).
-/

/-- Python `str.lower` restricted to the character ranges this code base
actually uses: ASCII letters and the basic Cyrillic block. -/
def pyLowerChar (c : Char) : Char :=
  if 'A' ≤ c ∧ c ≤ 'Z' then Char.ofNat (c.toNat + 32)
  else if 'А' ≤ c ∧ c ≤ 'Я' then Char.ofNat (c.toNat + 32)
  else if c = 'Ё' then 'ё'
  else c

/-- Python `str.lower` on a string. -/
def pyLower (s : String) : String :=
  String.mk (s.data.map pyLowerChar)

/-- Does `n` occur as a contiguous run inside `h`? -/
def charsContain (h n : List Char) : Bool :=
  match h with
  | [] => n.isEmpty
  | _ :: t => n.isPrefixOf h || charsContain t n

/-- Python `needle in haystack` on strings: substring containment. -/
def pyContains (haystack needle : String) : Bool :=
  charsContain haystack.data needle.data

/-- Break a character list at the separators selected by `p` (the
separators themselves are dropped). -/
def splitChars (p : Char → Bool) : List Char → List (List Char)
  | [] => [[]]
  | c :: cs =>
    if p c then [] :: splitChars p cs
    else match splitChars p cs with
      | [] => [[c]]
      | piece :: rest => (c :: piece) :: rest

/-- Python `str.split()` with no argument: split on whitespace runs,
dropping empty pieces. -/
def pySplit (s : String) : List String :=
  ((splitChars Char.isWhitespace s.data).map String.mk).filter (· ≠ "")

/-- Python `str.strip()`: drop leading and trailing whitespace. -/
def pyStrip (s : String) : String :=
  String.mk
    (((s.data.dropWhile Char.isWhitespace).reverse.dropWhile
      Char.isWhitespace).reverse)

/-- Replace, left to right, every non-overlapping occurrence of
`pattern` by `repl` (Python `str.replace` for a non-empty pattern).
Each step consumes at least one character, so the input's length is
enough fuel; the recursion is structural on the fuel so that the kernel
can evaluate it. -/
def replaceChars (pattern repl : List Char) : Nat → List Char → List Char
  | _, [] => []
  | 0, l => l
  | fuel + 1, c :: cs =>
    if pattern ≠ [] ∧ pattern.isPrefixOf (c :: cs) then
      repl ++ replaceChars pattern repl fuel (cs.drop (pattern.length - 1))
    else c :: replaceChars pattern repl fuel cs

/-- Python `str.replace` on strings. -/
def pyReplace (s pattern repl : String) : String :=
  String.mk (replaceChars pattern.data repl.data s.data.length s.data)

/-- Python `round(x, 2)`: rounding to two decimal places.  Modelled over
`ℚ` with Mathlib's `round` (the half-way tie-breaking rule differs from
float banker's rounding only at exact ties and is irrelevant to the
claims checked here). -/
def round2 (q : ℚ) : ℚ :=
  (round (q * 100) : ℤ) / 100

namespace DB

/-- A row of the `tasks` table (`task_database.py`, `init_database`). -/
structure Task where
  id : String
  user_id : Int
  title : String
  description : String
  priority : String
  status : String
  created_at : Int
  updated_at : Int
  due_date : Option Int
  completed_at : Option Int
  deriving Repr, DecidableEq

/-- The `tasks` table. -/
abbrev Table := List Task

/-- Does a row match the `WHERE id = ? AND user_id = ?` clause used by all
mutating statements? -/
def rowMatches (task_id : String) (user_id : Int) (r : Task) : Bool :=
  r.id = task_id ∧ r.user_id = user_id

/-- Insert a row into a list kept in `created_at`-descending order. -/
def insertByCreatedDesc (r : Task) : List Task → List Task
  | [] => [r]
  | x :: xs =>
    if x.created_at ≤ r.created_at then r :: x :: xs
    else x :: insertByCreatedDesc r xs

/-- Sort rows by `created_at` descending (insertion sort; SQLite leaves
the relative order of ties unspecified). -/
def sortByCreatedDesc : List Task → List Task
  | [] => []
  | r :: rs => insertByCreatedDesc r (sortByCreatedDesc rs)

/-- `TaskDatabase.get_tasks`: rows of one user, ordered by `created_at`
descending (`ORDER BY created_at DESC`). -/
def get_tasks (tbl : Table) (user_id : Int) : List Task :=
  sortByCreatedDesc (tbl.filter (fun r => r.user_id = user_id))

/-- `TaskDatabase.update_task_status`: sets `status`, `updated_at` and
`completed_at` (`now` iff the new status is `completed`, `NULL`
otherwise) on the rows matched by `(task_id, user_id)`; returns `true`
iff the rowcount was positive, paired with the resulting table. -/
def update_task_status (tbl : Table) (task_id : String) (user_id : Int)
    (new_status : String) (now : Int) : Bool × Table :=
  let tbl' := tbl.map (fun r =>
    if rowMatches task_id user_id r then
      { r with status := new_status, updated_at := now,
               completed_at := if new_status = "completed" then some now else none }
    else r)
  (tbl.any (rowMatches task_id user_id), tbl')

/-- `TaskDatabase.update_task_priority`: sets `priority` and `updated_at`
on the rows matched by `(task_id, user_id)`. -/
def update_task_priority (tbl : Table) (task_id : String) (user_id : Int)
    (new_priority : String) (now : Int) : Bool × Table :=
  let tbl' := tbl.map (fun r =>
    if rowMatches task_id user_id r then
      { r with priority := new_priority, updated_at := now }
    else r)
  (tbl.any (rowMatches task_id user_id), tbl')

/-- `TaskDatabase.delete_task`: `DELETE FROM tasks WHERE id = ? AND
user_id = ?`; returns `true` iff a row was deleted. -/
def delete_task (tbl : Table) (task_id : String) (user_id : Int) :
    Bool × Table :=
  (tbl.any (rowMatches task_id user_id),
   tbl.filter (fun r => ¬ rowMatches task_id user_id r))

/-- The record returned by `TaskDatabase.get_task_analytics`. -/
structure Analytics where
  total_tasks : Nat
  completed_tasks : Nat
  in_progress_tasks : Nat
  pending_tasks : Nat
  completion_rate : ℚ
  priority_distribution : List (String × Nat)
  deriving Repr, DecidableEq

/-- `TaskDatabase.get_task_analytics`: status counts over the user's rows,
the priority histogram, and `completion_rate = round(completed / total *
100, 2)` with `0` when `total == 0`. -/
def get_task_analytics (tbl : Table) (user_id : Int) : Analytics :=
  let rows := tbl.filter (fun r => r.user_id = user_id)
  let total := rows.length
  let completed := (rows.filter (fun r => r.status = "completed")).length
  let in_progress := (rows.filter (fun r => r.status = "in_progress")).length
  let pending := (rows.filter (fun r => r.status = "pending")).length
  let prios := (rows.map (fun r => r.priority)).dedup
  { total_tasks := total
    completed_tasks := completed
    in_progress_tasks := in_progress
    pending_tasks := pending
    completion_rate :=
      if 0 < total then round2 ((completed : ℚ) / (total : ℚ) * 100) else 0
    priority_distribution :=
      prios.map (fun p => (p, (rows.filter (fun r => r.priority = p)).length)) }

/-- The `completed_at`/`status` invariant of the spec's data model, for
one row: `completed_at` is set iff `status == completed`. -/
def completedAtInv (r : Task) : Prop :=
  r.completed_at.isSome = (r.status = "completed" : Bool)

instance (r : Task) : Decidable (completedAtInv r) := by
  unfold completedAtInv; infer_instance

end DB

namespace Trk

/-- One turn of a chat transcript. -/
structure ChatMsg where
  role : String
  content : String
  deriving Repr, DecidableEq

/-- `tracker.TrackerTask` — a task record of the YAML-backed store. -/
structure TrackerTask where
  id : String
  title : String
  description : String
  priority : String
  status : String
  created_at : Int
  updated_at : Int
  due_date : Option Int
  completed_at : Option Int
  deriving Repr, DecidableEq

/-- The dict produced by `TrackerTask.to_dict` (all nine keys are always
written). -/
structure TaskDict where
  id : String
  title : String
  description : String
  priority : String
  status : String
  created_at : Int
  updated_at : Int
  due_date : Option Int
  completed_at : Option Int
  deriving Repr, DecidableEq

/-- `TrackerTask.to_dict`. -/
def task_to_dict (t : TrackerTask) : TaskDict :=
  { id := t.id, title := t.title, description := t.description,
    priority := t.priority, status := t.status, created_at := t.created_at,
    updated_at := t.updated_at, due_date := t.due_date,
    completed_at := t.completed_at }

/-- `TrackerTask.from_dict`.  The source reads the optional keys with
`.get` defaults; a dict written by `to_dict` always carries every key, so
each field is read back verbatim. -/
def task_from_dict (d : TaskDict) : TrackerTask :=
  { id := d.id, title := d.title, description := d.description,
    priority := d.priority, status := d.status, created_at := d.created_at,
    updated_at := d.updated_at, due_date := d.due_date,
    completed_at := d.completed_at }

/-- The `notifications` dict of `TrackerUserData`. -/
structure NotificationsDict where
  daily_digest : Bool
  deadline_reminders : Bool
  new_task_notifications : Bool
  enabled : Bool
  deriving Repr, DecidableEq

/-- Default notification settings from `TrackerUserData.__init__`. -/
def defaultNotifications : NotificationsDict :=
  { daily_digest := false, deadline_reminders := false,
    new_task_notifications := false, enabled := true }

/-- `tracker.TaskReviewItem` — one task's slot in an evening session.
`to_dict`/`from_dict` write and read every field, so the dict form is the
record itself. -/
structure TaskReviewItem where
  task_id : String
  task_title : String
  progress_description : String
  needs_help : Bool
  help_provided : String
  ai_support : String
  completed : Bool
  deriving Repr, DecidableEq

/-- A fresh `TaskReviewItem(task_id, task_title)`. -/
def freshReviewItem (task_id task_title : String) : TaskReviewItem :=
  { task_id := task_id, task_title := task_title, progress_description := "",
    needs_help := false, help_provided := "", ai_support := "",
    completed := false }

/-- `tracker.EveningTrackingSession`; its `to_dict`/`from_dict` preserve
every field, so the dict form is the record itself. -/
structure EveningSession where
  user_id : Int
  date : String
  state : String
  started_at : Int
  completed_at : Option Int
  task_reviews : List TaskReviewItem
  current_task_index : Nat
  gratitude_answer : String
  summary : String
  ai_conversation : List ChatMsg
  deriving Repr, DecidableEq

/-- The dict produced by `DailySummary.to_dict` — one entry of the
per-user `daily_summaries` history. -/
structure DailySummaryD where
  date : String
  user_id : Int
  created_at : Int
  tasks_reviewed : Nat
  tasks_with_progress : Nat
  tasks_needing_help : Nat
  gratitude_theme : String
  key_insights : List String
  mood_indicators : List String
  productivity_level : String
  summary_text : String
  deriving Repr, DecidableEq

/-- `tracker.TrackerUserData` — the in-memory per-user record.
`anxiety_level` is a stored numeric value; it is modelled over `ℚ`. -/
structure TrackerUserData where
  user_id : Int
  step : String
  completed : Bool
  started_at : Int
  anxiety_level : Option ℚ
  anxiety_answers : List Nat
  goals : List String
  custom_goal : Option String
  notifications : NotificationsDict
  met_ai_mentor : Bool
  ai_mentor_history : List ChatMsg
  tasks : List TrackerTask
  current_view : String
  timezone : String
  notification_time : String
  evening_tracking_enabled : Bool
  evening_tracking_time : String
  current_evening_session : Option EveningSession
  daily_summaries : List DailySummaryD
  deriving Repr, DecidableEq

/-- The per-user dict written into the YAML file by `save_user_data`
(every key is always written). -/
structure UserDataDict where
  step : String
  completed : Bool
  started_at : Int
  anxiety_level : Option ℚ
  anxiety_answers : List Nat
  goals : List String
  custom_goal : Option String
  notifications : NotificationsDict
  met_ai_mentor : Bool
  ai_mentor_history : List ChatMsg
  tasks : List TaskDict
  current_view : String
  timezone : String
  notification_time : String
  evening_tracking_enabled : Bool
  evening_tracking_time : String
  current_evening_session : Option EveningSession
  daily_summaries : List DailySummaryD
  deriving Repr, DecidableEq

/-- The YAML file contents: a map from `str(user_id)` to the user's dict.
`str` is injective on integers, so keys are modelled by the id itself. -/
abbrev Store := List (Int × UserDataDict)

/-- Association-list lookup — Python `dict.get`. -/
def lookupKey (k : Int) : Store → Option UserDataDict
  | [] => none
  | (k', v) :: rest => if k' = k then some v else lookupKey k rest

/-- Association-list update — Python `dict[k] = v`. -/
def setKey (k : Int) (v : UserDataDict) : Store → Store
  | [] => [(k, v)]
  | (k', v') :: rest =>
    if k' = k then (k, v) :: rest else (k', v') :: setKey k v rest

/-- The dict `save_user_data` writes for one user. -/
def user_to_dict (u : TrackerUserData) : UserDataDict :=
  { step := u.step, completed := u.completed, started_at := u.started_at,
    anxiety_level := u.anxiety_level, anxiety_answers := u.anxiety_answers,
    goals := u.goals, custom_goal := u.custom_goal,
    notifications := u.notifications, met_ai_mentor := u.met_ai_mentor,
    ai_mentor_history := u.ai_mentor_history,
    tasks := u.tasks.map task_to_dict, current_view := u.current_view,
    timezone := u.timezone, notification_time := u.notification_time,
    evening_tracking_enabled := u.evening_tracking_enabled,
    evening_tracking_time := u.evening_tracking_time,
    current_evening_session := u.current_evening_session,
    daily_summaries := u.daily_summaries }

/-- The field-by-field reconstruction `get_user_data` performs when the
user's dict is present (each `.get` finds its key, since `save_user_data`
writes all of them). -/
def user_from_dict (user_id : Int) (d : UserDataDict) : TrackerUserData :=
  { user_id := user_id, step := d.step, completed := d.completed,
    started_at := d.started_at, anxiety_level := d.anxiety_level,
    anxiety_answers := d.anxiety_answers, goals := d.goals,
    custom_goal := d.custom_goal, notifications := d.notifications,
    met_ai_mentor := d.met_ai_mentor,
    ai_mentor_history := d.ai_mentor_history,
    tasks := d.tasks.map task_from_dict, current_view := d.current_view,
    timezone := d.timezone, notification_time := d.notification_time,
    evening_tracking_enabled := d.evening_tracking_enabled,
    evening_tracking_time := d.evening_tracking_time,
    current_evening_session := d.current_evening_session,
    daily_summaries := d.daily_summaries }

/-- The fresh record `TrackerUserData(user_id)`; `now` stands for the
`int(time.time())` taken in the constructor. -/
def defaultUserData (user_id : Int) (now : Int) : TrackerUserData :=
  { user_id := user_id, step := "greeting", completed := false,
    started_at := now, anxiety_level := none, anxiety_answers := [],
    goals := [], custom_goal := none, notifications := defaultNotifications,
    met_ai_mentor := false, ai_mentor_history := [], tasks := [],
    current_view := "main", timezone := "UTC", notification_time := "09:00",
    evening_tracking_enabled := true, evening_tracking_time := "21:00",
    current_evening_session := none, daily_summaries := [] }

/-- `tracker.get_user_data`: read the user's dict from the store and
rebuild the record, or return the fresh default when it is absent (or
empty — `if user_data_dict:`). -/
def get_user_data (store : Store) (user_id : Int) (now : Int) :
    TrackerUserData :=
  match lookupKey user_id store with
  | none => defaultUserData user_id now
  | some d => user_from_dict user_id d

/-- `tracker.save_user_data`: write the user's dict back into the store. -/
def save_user_data (store : Store) (u : TrackerUserData) : Store :=
  setKey u.user_id (user_to_dict u) store

/-- `tracker.get_tasks_by_status`. -/
def get_tasks_by_status (u : TrackerUserData) (status : String) :
    List TrackerTask :=
  u.tasks.filter (fun t => t.status = status)

/-- Rewrite the first task with the given id (the object
`get_task_by_id` returns is mutated in place). -/
def updateFirstTask (task_id : String) (f : TrackerTask → TrackerTask) :
    List TrackerTask → List TrackerTask
  | [] => []
  | t :: ts =>
    if t.id = task_id then f t :: ts else t :: updateFirstTask task_id f ts

/-- `tracker.update_task_status`: on the task found by id, set the new
status and `updated_at`, and set `completed_at` when the new status is
`completed` — transitions away from `completed` leave `completed_at`
untouched. -/
def update_task_status (u : TrackerUserData) (task_id new_status : String)
    (now : Int) : Bool × TrackerUserData :=
  if u.tasks.any (fun t => t.id = task_id) then
    (true,
     { u with tasks := updateFirstTask task_id (fun t =>
        let t' := { t with status := new_status, updated_at := now }
        if new_status = "completed" then { t' with completed_at := some now }
        else t') u.tasks })
  else (false, u)

/-- The `completed_at`/`status` invariant for a tracker task. -/
def completedAtInv (t : TrackerTask) : Prop :=
  t.completed_at.isSome = (t.status = "completed" : Bool)

instance (t : TrackerTask) : Decidable (completedAtInv t) := by
  unfold completedAtInv; infer_instance

end Trk

namespace Agents

/-- `TaskManagementAgent._normalize_text`: the naive suffix-folding table,
applied by sequential `str.replace` in source order. -/
def normalize_text (text : String) : String :=
  let repls : List (String × String) :=
    [("стратегию", "стратегия"), ("стратегии", "стратегия"),
     ("стратегией", "стратегия"), ("задачу", "задача"),
     ("задачи", "задача"), ("задачей", "задача"),
     ("презентацию", "презентация"), ("презентации", "презентация"),
     ("презентацией", "презентация"), ("банка", "банк"),
     ("банку", "банк"), ("банком", "банк")]
  repls.foldl (fun acc p => pyReplace acc p.1 p.2) text

/-- The text a task is matched against: `title + ' ' + description`,
lowercased. -/
def taskText (t : DB.Task) : String :=
  pyLower (t.title ++ " " ++ t.description)

/-- One task's tiered match test from `_delete_task`'s search loop:
direct substring, then all-words-present (only for multi-word phrases),
then substring after suffix normalization. -/
def taskMatchesSearch (search_text : String) (t : DB.Task) : Bool :=
  let tt := taskText t
  let search_words := pySplit search_text
  if pyContains tt search_text then true
  else if 1 < search_words.length ∧
      search_words.length ≤ (search_words.filter (fun w => pyContains tt w)).length
    then true
  else pyContains (normalize_text tt) (normalize_text search_text)

/-- The tasks matching a search phrase, in `get_tasks` order. -/
def matching_tasks (tbl : DB.Table) (user_id : Int) (search_text : String) :
    List DB.Task :=
  (DB.get_tasks tbl user_id).filter (taskMatchesSearch search_text)

/-- The abstraction of `_delete_task`'s reply string: which message shape
was produced and which task data it surfaces. -/
inductive DeleteResp where
  /-- direct-deletion branch: the id matched no task of this user -/
  | notFound : DeleteResp
  /-- direct-deletion branch: the task was deleted -/
  | deleted (title : String) : DeleteResp
  /-- direct-deletion branch: the store delete reported failure -/
  | deleteFailed (title : String) : DeleteResp
  /-- search branch: the user has no tasks at all -/
  | noTasks : DeleteResp
  /-- search branch, 0 matches: suggestions drawn from the user's current
  task list (first five shown) and its total count -/
  | suggestions (shown : List DB.Task) (total : Nat) : DeleteResp
  /-- search branch, exactly 1 match: confirmation request surfacing the
  task (title, status, priority, description, id) -/
  | confirmRequest (task : DB.Task) : DeleteResp
  /-- search branch, >1 matches: disambiguation list (first ten shown)
  and the total match count -/
  | disambiguation (shown : List DB.Task) (total : Nat) : DeleteResp
  /-- neither `task_id` nor `search_text` was supplied -/
  | badParams : DeleteResp
  deriving Repr, DecidableEq

/-- The parameters `_delete_task` receives (decoded from its JSON). -/
structure DeleteParams where
  user_id : Int
  task_id : Option String
  search_text : Option String
  deriving Repr, DecidableEq

/-- `TaskManagementAgent._delete_task`, paired with the resulting task
table.  The `task_id` branch deletes through `db.delete_task`; the
`search_text` branch only classifies matches and never mutates. -/
def delete_task (p : DeleteParams) (tbl : DB.Table) :
    DeleteResp × DB.Table :=
  match p.task_id with
  | some task_id =>
    let tasks := DB.get_tasks tbl p.user_id
    match tasks.find? (fun t => t.id = task_id) with
    | none => (.notFound, tbl)
    | some task_to_delete =>
      let (success, tbl') := DB.delete_task tbl task_id p.user_id
      if success then (.deleted task_to_delete.title, tbl')
      else (.deleteFailed task_to_delete.title, tbl')
  | none =>
    match p.search_text with
    | some raw =>
      let search_text := pyLower raw
      let tasks := DB.get_tasks tbl p.user_id
      if tasks.isEmpty then (.noTasks, tbl)
      else
        let ms := tasks.filter (taskMatchesSearch search_text)
        match ms with
        | [] => (.suggestions (tasks.take 5) tasks.length, tbl)
        | [task] => (.confirmRequest task, tbl)
        | _ => (.disambiguation (ms.take 10) ms.length, tbl)
    | none => (.badParams, tbl)

/-- `OrchestratorAgent._is_deletion_confirmation`: the message (lowered
and stripped) contains an affirmative phrase, and either carries a long
dashed token (a task id) or is at most three words long. -/
def is_deletion_confirmation (message : String) : Bool :=
  let message_lower := pyStrip (pyLower message)
  let confirmation_phrases : List String :=
    ["да", "yes", "подтверждаю", "удаляю", "удалить",
     "подтверждаю удаление", "согласен", "хорошо",
     "ok", "ок", "давай", "удали"]
  let has_confirmation :=
    confirmation_phrases.any (fun phrase => pyContains message_lower phrase)
  let has_task_id :=
    (pySplit message_lower).any (fun part =>
      20 < part.length ∧ pyContains part "-")
  has_confirmation && (has_task_id || (pySplit message_lower).length ≤ 3)

/-- Is `c` a lowercase hexadecimal digit? -/
def isHexDigit (c : Char) : Bool :=
  ('0' ≤ c ∧ c ≤ '9') ∨ ('a' ≤ c ∧ c ≤ 'f')

/-- Consume `n` hex digits, returning the rest of the input. -/
def hexRun (n : Nat) (l : List Char) : Option (List Char) :=
  if (l.take n).length = n ∧ (l.take n).all isHexDigit then some (l.drop n)
  else none

/-- Consume one dash. -/
def dashNext : List Char → Option (List Char)
  | '-' :: rest => some rest
  | _ => none

/-- Does the UUID pattern `[0-9a-f]{8}-'-'…` (8-4-4-4-12) match at the
head of the input? -/
def uuidAt (l : List Char) : Bool :=
  ((hexRun 8 l).bind dashNext |>.bind (hexRun 4) |>.bind dashNext
    |>.bind (hexRun 4) |>.bind dashNext |>.bind (hexRun 4)
    |>.bind dashNext |>.bind (hexRun 12)).isSome

/-- The leftmost UUID-shaped substring, if any. -/
def findUuid : List Char → Option String
  | [] => none
  | l@(_ :: rest) =>
    if uuidAt l then some (String.mk (l.take 36)) else findUuid rest

/-- `OrchestratorAgent._extract_task_id_from_message`: leftmost UUID in
the lowercased message, as `re.findall(...)[0]`. -/
def extract_task_id_from_message (message : String) : Option String :=
  findUuid (pyLower message).data

/-- The context dict handed to `TaskManagementAgent.process_message`. -/
structure MsgContext where
  task_id : Option String
  deriving Repr, DecidableEq

/-- The deterministic prefix of `TaskManagementAgent.process_message`:
with a `task_id` in the context it immediately performs the confirmed
deletion; otherwise it proceeds to the `TaskSelectorAgent` intent
analysis (an external completion-service call, outside this model). -/
inductive ProcOutcome where
  | directDelete (resp : DeleteResp) (tbl : DB.Table) : ProcOutcome
  | intentAnalysis : ProcOutcome
  deriving Repr, DecidableEq

/-- `TaskManagementAgent.process_message`, up to its first external
call. -/
def process_message (user_id : Int) (ctx : MsgContext) (tbl : DB.Table) :
    ProcOutcome :=
  match ctx.task_id with
  | some task_id =>
    let (resp, tbl') :=
      delete_task { user_id := user_id, task_id := some task_id,
                    search_text := none } tbl
    .directDelete resp tbl'
  | none => .intentAnalysis

/-- The deterministic prefix of `OrchestratorAgent.route_request`:
which branch the message takes before any completion-service call. -/
inductive RouteOutcome where
  /-- affirmative message carrying a task id: confirmed deletion -/
  | confirmedDeletion (out : ProcOutcome) : RouteOutcome
  /-- affirmative message without a task id: intent resolution re-run -/
  | rerunResolution (out : ProcOutcome) : RouteOutcome
  /-- not a deletion confirmation: LLM routing -/
  | llmRouting : RouteOutcome
  deriving Repr, DecidableEq

/-- `OrchestratorAgent.route_request`, up to its first external call. -/
def route_request (user_id : Int) (message : String) (tbl : DB.Table) :
    RouteOutcome :=
  if is_deletion_confirmation message then
    match extract_task_id_from_message message with
    | some task_id =>
      .confirmedDeletion
        (process_message user_id { task_id := some task_id } tbl)
    | none =>
      .rerunResolution (process_message user_id { task_id := none } tbl)
  else .llmRouting

end Agents

namespace Notif

/-- `NotificationManager._send_daily_digest_to_all_users` followed by
`_send_daily_digest`, as the list of user ids a digest is sent to, in
iteration order.  `bot` is the `self.bot` presence check; a user is sent
to when the stored dict has notifications enabled with `daily_digest` on
and the reloaded user record is `completed`.  No last-sent marker of any
kind is read or written. -/
def send_daily_digest_to_all_users (bot : Bool) (store : Trk.Store)
    (now : Int) : List Int :=
  if bot then
    store.filterMap (fun p =>
      if p.2.notifications.enabled ∧ p.2.notifications.daily_digest then
        if (Trk.get_user_data store p.1 now).completed then some p.1
        else none
      else none)
  else []

/-- The daily-digest job run twice on the same calendar date (same store,
same day): the concatenation of the two runs' send lists. -/
def digest_job_twice (bot : Bool) (store : Trk.Store) (now : Int) :
    List Int :=
  send_daily_digest_to_all_users bot store now ++
  send_daily_digest_to_all_users bot store now

end Notif

namespace Trk

/-- `tracker.can_start_evening_session`: requires evening tracking
enabled, at least one active (pending or in-progress) task, and no
daily summary recorded for today's date.  `today` stands for
`get_today_date_str` (a timezone-dependent wall-clock read). -/
def can_start_evening_session (u : TrackerUserData) (today : String) :
    Bool :=
  if ¬ u.evening_tracking_enabled then false
  else if (get_tasks_by_status u "pending" ++
           get_tasks_by_status u "in_progress").isEmpty then false
  else if u.daily_summaries.any (fun s => s.date = today) then false
  else true

/-- `tracker.start_evening_session`: build a fresh session over the
active tasks, put it in `task_review` state, and store it as the user's
current evening session. -/
def start_evening_session (u : TrackerUserData) (today : String)
    (now : Int) : EveningSession × TrackerUserData :=
  let active := get_tasks_by_status u "pending" ++
                get_tasks_by_status u "in_progress"
  let session : EveningSession :=
    { user_id := u.user_id, date := today, state := "task_review",
      started_at := now, completed_at := none,
      task_reviews := active.map (fun t => freshReviewItem t.id t.title),
      current_task_index := 0, gratitude_answer := "", summary := "",
      ai_conversation := [] }
  (session, { u with current_evening_session := some session })

/-- The negative-outcome phrase test of `handle_task_review`:
`"ничего" in msg.lower() or "не делал" in msg.lower() or "нет" in
msg.lower()`. -/
def negativeReply (msg : String) : Bool :=
  pyContains (pyLower msg) "ничего" || pyContains (pyLower msg) "не делал" ||
  pyContains (pyLower msg) "нет"

/-- `tracker.move_to_next_task`: advance the review index; past the last
item the session state becomes `gratitude`. -/
def move_to_next_task (s : EveningSession) : EveningSession :=
  let i := s.current_task_index + 1
  if s.task_reviews.length ≤ i then
    { s with current_task_index := i, state := "gratitude" }
  else { s with current_task_index := i }

/-- `tracker.handle_task_review` as a pure transition on the session.
`support_text` and `help_text` stand for the awaited
`generate_task_support` / `generate_task_help` completions.  Indexing the
current review item is fallible (`none` models the `IndexError` path). -/
def handle_task_review (s : EveningSession)
    (user_message support_text help_text : String) :
    Option EveningSession :=
  match s.task_reviews[s.current_task_index]? with
  | none => none
  | some r =>
    if r.progress_description = "" then
      let r1 : TaskReviewItem :=
        { r with progress_description := user_message,
                 ai_support := support_text }
      let conv := s.ai_conversation ++
        [⟨"user", user_message⟩, ⟨"assistant", support_text⟩]
      if negativeReply user_message then
        some { s with
          task_reviews :=
            s.task_reviews.set s.current_task_index
              { r1 with needs_help := true },
          ai_conversation := conv }
      else
        some (move_to_next_task { s with
          task_reviews := s.task_reviews.set s.current_task_index r1,
          ai_conversation := conv })
    else if r.needs_help ∧ r.help_provided = "" then
      let r2 : TaskReviewItem := { r with help_provided := user_message }
      let conv := s.ai_conversation ++
        [⟨"user", user_message⟩, ⟨"assistant", help_text⟩]
      some (move_to_next_task { s with
        task_reviews := s.task_reviews.set s.current_task_index r2,
        ai_conversation := conv })
    else some s

/-- `tracker.complete_evening_session` as a pure transition: append the
generated `DailySummary` dict `d` to the history, cap the history at the
last 30 entries, mark the session completed, and clear the user's
current evening session.  `d` stands for the awaited
`generate_daily_summary` result. -/
def complete_evening_session (u : TrackerUserData) (s : EveningSession)
    (d : DailySummaryD) (now : Int) : TrackerUserData × EveningSession :=
  let summaries := u.daily_summaries ++ [d]
  let summaries :=
    if 30 < summaries.length then summaries.drop (summaries.length - 30)
    else summaries
  let s' : EveningSession :=
    { s with completed_at := some now, state := "completed",
             summary := d.summary_text }
  ({ u with daily_summaries := summaries,
            current_evening_session := none }, s')

end Trk

/-! Concrete fixtures used by witness and counterexample theorems. -/

/-- A SQLite task row with the given id, owner, status and creation
time. -/
def mkDbTask (id : String) (user_id : Int) (title status : String)
    (created : Int) : DB.Task :=
  { id := id, user_id := user_id, title := title, description := "",
    priority := "medium", status := status, created_at := created,
    updated_at := created, due_date := none, completed_at := none }

/-- A tracker task with the given id, status and `completed_at`. -/
def mkTrkTask (id title status : String) (completed_at : Option Int) :
    Trk.TrackerTask :=
  { id := id, title := title, description := "", priority := "medium",
    status := status, created_at := 10, updated_at := 10, due_date := none,
    completed_at := completed_at }

/-- A tracker user owning the given tasks, with the given current evening
session and summary history; onboarding completed, evening tracking on. -/
def mkTrkUser (user_id : Int) (tasks : List Trk.TrackerTask)
    (sess : Option Trk.EveningSession)
    (sums : List Trk.DailySummaryD) : Trk.TrackerUserData :=
  { Trk.defaultUserData user_id 0 with
    completed := true, tasks := tasks, current_evening_session := sess,
    daily_summaries := sums }

/-- An evening session over one fresh review item, in `task_review`
state. -/
def mkSession (date : String) : Trk.EveningSession :=
  { user_id := 1, date := date, state := "task_review", started_at := 5,
    completed_at := none,
    task_reviews := [Trk.freshReviewItem "t1" "Buy milk"],
    current_task_index := 0, gratitude_answer := "", summary := "",
    ai_conversation := [] }

/-- A stored user dict: onboarding completed, notifications enabled with
the daily digest switched on. -/
def mkDigestUserDict : Trk.UserDataDict :=
  Trk.user_to_dict
    { Trk.defaultUserData 0 0 with
      completed := true,
      notifications := { Trk.defaultNotifications with daily_digest := true } }

/-! Theorems. -/

/-- Association-list lookup after an update at the same key. -/
theorem Trk.lookupKey_setKey_self (k : Int) (v : Trk.UserDataDict)
    (store : Trk.Store) :
    Trk.lookupKey k (Trk.setKey k v store) = some v := by
  induction store with
  | nil => simp [Trk.setKey, Trk.lookupKey]
  | cons p rest ih =>
    by_cases h : p.1 = k
    · simp [Trk.setKey, h, Trk.lookupKey]
    · simp [Trk.setKey, h, Trk.lookupKey, ih]

/-- C3: for every `(task_id, owner)` pair where the id does not belong to
the owner, `update_task_status`, `update_task_priority` and `delete_task`
of the SQLite store return `false` (not found) and leave the task table
completely unchanged — one user can never mutate or delete another
user's task. -/
theorem claim_C3_owner_scoped_mutation (tbl : DB.Table) (task_id : String)
    (user_id : Int) (status priority : String) (now : Int)
    (h : ∀ r ∈ tbl, ¬ (r.id = task_id ∧ r.user_id = user_id)) :
    DB.update_task_status tbl task_id user_id status now = (false, tbl) ∧
    DB.update_task_priority tbl task_id user_id priority now = (false, tbl) ∧
    DB.delete_task tbl task_id user_id = (false, tbl) := by
  have hm : ∀ r ∈ tbl, DB.rowMatches task_id user_id r = false := by
    intro r hr
    simpa [DB.rowMatches] using h r hr
  have hany : tbl.any (DB.rowMatches task_id user_id) = false := by
    simp only [List.any_eq_false]
    intro r hr
    simp [hm r hr]
  have hmap : ∀ f : DB.Task → DB.Task,
      tbl.map (fun r => if DB.rowMatches task_id user_id r then f r else r)
        = tbl := by
    intro f
    calc tbl.map (fun r => if DB.rowMatches task_id user_id r then f r else r)
        = tbl.map id := List.map_congr_left (fun r hr => by simp [hm r hr])
      _ = tbl := List.map_id tbl
  have hfilter : tbl.filter
      (fun r => ¬ DB.rowMatches task_id user_id r) = tbl := by
    apply List.filter_eq_self.mpr
    intro r hr
    simp [hm r hr]
  refine ⟨?_, ?_, ?_⟩
  · unfold DB.update_task_status
    rw [hany, hmap]
  · unfold DB.update_task_priority
    rw [hany, hmap]
  · unfold DB.delete_task
    rw [hany, hfilter]

/-- Witness for C3: a table holding only a task of user 1; user 2
attempts the three mutations on that task's id. -/
theorem claim_C3_owner_scoped_mutation_witness :
    DB.update_task_status [mkDbTask "t1" 1 "Buy milk" "pending" 10]
        "t1" 2 "completed" 20 =
      (false, [mkDbTask "t1" 1 "Buy milk" "pending" 10]) ∧
    DB.update_task_priority [mkDbTask "t1" 1 "Buy milk" "pending" 10]
        "t1" 2 "high" 20 =
      (false, [mkDbTask "t1" 1 "Buy milk" "pending" 10]) ∧
    DB.delete_task [mkDbTask "t1" 1 "Buy milk" "pending" 10] "t1" 2 =
      (false, [mkDbTask "t1" 1 "Buy milk" "pending" 10]) :=
  claim_C3_owner_scoped_mutation [mkDbTask "t1" 1 "Buy milk" "pending" 10]
    "t1" 2 "completed" "high" 20 (by decide)

/-- C4 (amended): in the SQLite store, `update_task_status` writes
`completed_at = now` exactly when the new status is `completed` and
`NULL` otherwise, so the invariant `completed_at` set iff `status ==
completed` is preserved by every status update.  (The claim's extension
to the YAML tracker store fails: see the counterexample.) -/
theorem claim_C4_sqlite_completed_at_invariant (tbl : DB.Table)
    (task_id : String) (user_id : Int) (status : String) (now : Int)
    (h : ∀ r ∈ tbl, DB.completedAtInv r) :
    ∀ r' ∈ (DB.update_task_status tbl task_id user_id status now).2,
      DB.completedAtInv r' := by
  intro r' hr'
  unfold DB.update_task_status at hr'
  simp only [List.mem_map] at hr'
  obtain ⟨r, hr, hfr⟩ := hr'
  by_cases hm : DB.rowMatches task_id user_id r = true
  · subst hfr
    simp only [hm, if_pos]
    unfold DB.completedAtInv
    by_cases hs : status = "completed" <;> simp [hs]
  · subst hfr
    simp only [hm]
    simpa using h r hr

/-- Witness for C4's amended theorem: updating the sole completed task of
user 1 back to `pending` clears `completed_at` in the SQLite store. -/
theorem claim_C4_sqlite_completed_at_invariant_witness :
    DB.completedAtInv
      { mkDbTask "t1" 1 "Buy milk" "pending" 10 with updated_at := 20 } :=
  claim_C4_sqlite_completed_at_invariant
    [{ mkDbTask "t1" 1 "Buy milk" "completed" 10 with
        completed_at := some 10 }] "t1" 1 "pending" 20 (by decide)
    { mkDbTask "t1" 1 "Buy milk" "pending" 10 with updated_at := 20 }
    (by decide)

/-- Counterexample for C4 as stated: in the YAML tracker store,
`update_task_status` never clears `completed_at`.  Reverting a completed
task (status `completed`, `completed_at = 100`) to `pending` leaves
`completed_at = 100` in place, so the table no longer satisfies
`completed_at` set iff `status == completed`. -/
theorem claim_C4_counterexample :
    ((Trk.update_task_status
        (mkTrkUser 1 [mkTrkTask "t1" "Buy milk" "completed" (some 100)]
          none []) "t1" "pending" 200).2.tasks.all
      (fun t => decide (Trk.completedAtInv t))) = false := by
  decide

/-- C9: completing an evening session appends exactly one `DailySummary`
at the end of the history, evicting the oldest entries first so that at
most 30 are retained (`drop (n + 1 - 30)` is `0` entries while the
history fits), and the current evening session is cleared to `none` in
the same step. -/
theorem claim_C9_summary_history (u : Trk.TrackerUserData)
    (s : Trk.EveningSession) (d : Trk.DailySummaryD) (now : Int) :
    (Trk.complete_evening_session u s d now).1.daily_summaries =
      u.daily_summaries.drop (u.daily_summaries.length + 1 - 30) ++ [d] ∧
    (Trk.complete_evening_session u s d now).1.daily_summaries.length =
      min (u.daily_summaries.length + 1) 30 ∧
    (Trk.complete_evening_session u s d now).1.current_evening_session =
      none := by
  unfold Trk.complete_evening_session
  simp only [List.length_append, List.length_cons, List.length_nil]
  by_cases h : 30 < u.daily_summaries.length + 1
  · have hle : u.daily_summaries.length + 1 - 30 ≤ u.daily_summaries.length := by
      omega
    refine ⟨?_, ?_, trivial⟩
    · simp only [if_pos h]
      exact List.drop_append_of_le_length hle
    · simp only [if_pos h, List.length_drop, List.length_append,
        List.length_cons, List.length_nil]
      omega
  · have h0 : u.daily_summaries.length + 1 - 30 = 0 := by omega
    refine ⟨?_, ?_, trivial⟩
    · simp [if_neg h, h0]
    · simp only [if_neg h, List.length_append, List.length_cons,
        List.length_nil]
      omega

/-- C10: saving a user record with `save_user_data` and loading it back
with `get_user_data` for the same user id reproduces the record
field-by-field (the task list survives the `to_dict`/`from_dict` trip,
and every other field is written and read verbatim). -/
theorem claim_C10_user_round_trip (store : Trk.Store)
    (u : Trk.TrackerUserData) (now : Int) :
    Trk.get_user_data (Trk.save_user_data store u) u.user_id now = u := by
  unfold Trk.get_user_data Trk.save_user_data
  rw [Trk.lookupKey_setKey_self]
  show Trk.user_from_dict u.user_id (Trk.user_to_dict u) = u
  unfold Trk.user_from_dict Trk.user_to_dict
  simp only [List.map_map]
  have h : Trk.task_from_dict ∘ Trk.task_to_dict = id := by
    funext t
    rfl
  rw [h, List.map_id]

/-- Rounding to two decimals keeps a rational inside `[0, 100]`. -/
theorem round2_bounds (q : ℚ) (h0 : 0 ≤ q) (h1 : q ≤ 100) :
    0 ≤ round2 q ∧ round2 q ≤ 100 := by
  unfold round2
  rw [round_eq]
  constructor
  · have hf : (0 : ℤ) ≤ ⌊q * 100 + 1 / 2⌋ := Int.floor_nonneg.mpr (by linarith)
    have hf' : (0 : ℚ) ≤ (⌊q * 100 + 1 / 2⌋ : ℤ) := by exact_mod_cast hf
    linarith
  · have hf : ⌊q * 100 + 1 / 2⌋ < (10001 : ℤ) := by
      apply Int.floor_lt.mpr
      push_cast
      linarith
    have hf' : ((⌊q * 100 + 1 / 2⌋ : ℤ) : ℚ) ≤ 10000 := by
      exact_mod_cast Int.lt_add_one_iff.mp hf
    linarith

/-- C5: for every owner, `get_task_analytics` returns a completion rate
that is `round(completed / total * 100, 2)` when tasks exist, is exactly
`0` (a number, never null) when `total == 0`, and always lies in
`[0, 100]`. -/
theorem claim_C5_completion_rate (tbl : DB.Table) (user_id : Int) :
    ((DB.get_task_analytics tbl user_id).total_tasks = 0 →
      (DB.get_task_analytics tbl user_id).completion_rate = 0) ∧
    0 ≤ (DB.get_task_analytics tbl user_id).completion_rate ∧
    (DB.get_task_analytics tbl user_id).completion_rate ≤ 100 ∧
    (0 < (DB.get_task_analytics tbl user_id).total_tasks →
      (DB.get_task_analytics tbl user_id).completion_rate =
        round2 (((DB.get_task_analytics tbl user_id).completed_tasks : ℚ) /
          ((DB.get_task_analytics tbl user_id).total_tasks : ℚ) * 100)) := by
  have hle : ((tbl.filter (fun r => r.user_id = user_id)).filter
      (fun r => r.status = "completed")).length ≤
      (tbl.filter (fun r => r.user_id = user_id)).length :=
    List.length_filter_le _ _
  unfold DB.get_task_analytics
  dsimp only
  set n := (tbl.filter (fun r => r.user_id = user_id)).length with hn
  set c := ((tbl.filter (fun r => r.user_id = user_id)).filter
      (fun r => r.status = "completed")).length with hc
  by_cases h : 0 < n
  · have hq0 : 0 ≤ (c : ℚ) / (n : ℚ) * 100 := by positivity
    have hn0 : (0 : ℚ) < (n : ℚ) := by exact_mod_cast h
    have hq1 : (c : ℚ) / (n : ℚ) * 100 ≤ 100 := by
      have hcn : (c : ℚ) ≤ (n : ℚ) := by exact_mod_cast hle
      have : (c : ℚ) / (n : ℚ) ≤ 1 := (div_le_one hn0).mpr hcn
      linarith
    obtain ⟨hb0, hb1⟩ := round2_bounds _ hq0 hq1
    rw [if_pos h]
    exact ⟨fun h0 => absurd h0 (by omega), hb0, hb1, fun _ => rfl⟩
  · rw [if_neg h]
    exact ⟨fun _ => rfl, le_refl 0, by norm_num, fun h0 => absurd h0 h⟩

/-- Witness for C5: user 1 owns one completed and one pending task; the
analytics bounds and rounding equation hold there with `total = 2`. -/
theorem claim_C5_completion_rate_witness :
    0 < (DB.get_task_analytics
      [mkDbTask "a" 1 "A" "completed" 10, mkDbTask "b" 1 "B" "pending" 20]
      1).total_tasks ∧
    (DB.get_task_analytics
      [mkDbTask "a" 1 "A" "completed" 10, mkDbTask "b" 1 "B" "pending" 20]
      1).completion_rate ≤ 100 ∧
    (DB.get_task_analytics
      [mkDbTask "a" 1 "A" "completed" 10, mkDbTask "b" 1 "B" "pending" 20]
      1).completion_rate =
      round2 (((DB.get_task_analytics
        [mkDbTask "a" 1 "A" "completed" 10, mkDbTask "b" 1 "B" "pending" 20]
        1).completed_tasks : ℚ) /
        ((DB.get_task_analytics
          [mkDbTask "a" 1 "A" "completed" 10, mkDbTask "b" 1 "B" "pending" 20]
          1).total_tasks : ℚ) * 100) :=
  ⟨by decide,
   (claim_C5_completion_rate
     [mkDbTask "a" 1 "A" "completed" 10, mkDbTask "b" 1 "B" "pending" 20]
     1).2.2.1,
   (claim_C5_completion_rate
     [mkDbTask "a" 1 "A" "completed" 10, mkDbTask "b" 1 "B" "pending" 20]
     1).2.2.2 (by decide)⟩

/-- Counterexample for C6 as stated: a user with one pending task and an
ACTIVE (not yet summarized) evening session for today is NOT rejected by
`can_start_evening_session` — the guard only consults `daily_summaries`,
so a second session for the same calendar date is created over the
active one. -/
theorem claim_C6_counterexample :
    Trk.can_start_evening_session
      (mkTrkUser 1 [mkTrkTask "t1" "Buy milk" "pending" none]
        (some (mkSession "2025-01-01")) []) "2025-01-01" = true ∧
    ((Trk.start_evening_session
      (mkTrkUser 1 [mkTrkTask "t1" "Buy milk" "pending" none]
        (some (mkSession "2025-01-01")) []) "2025-01-01"
      99).2.current_evening_session.map (fun s => s.started_at)) =
      some 99 := by
  decide

/-- C6 (amended): starting a reflection session is rejected whenever a
daily summary for that calendar date is already recorded (i.e. a session
for that date was completed and summarized), whenever the user has zero
eligible (pending or in-progress) tasks, or whenever evening tracking is
disabled.  An active, not-yet-summarized session does not cause
rejection (see the counterexample). -/
theorem claim_C6_session_start_guard (u : Trk.TrackerUserData)
    (today : String)
    (h : u.daily_summaries.any (fun s => s.date = today) = true ∨
         (Trk.get_tasks_by_status u "pending" ++
          Trk.get_tasks_by_status u "in_progress") = [] ∨
         u.evening_tracking_enabled = false) :
    Trk.can_start_evening_session u today = false := by
  unfold Trk.can_start_evening_session
  rcases h with h | h | h <;> split_ifs <;> simp_all [List.isEmpty_iff]

/-- Witness for C6's amended theorem: a summary for today's date is
already recorded, so a second session start for that date is rejected. -/
theorem claim_C6_session_start_guard_witness :
    Trk.can_start_evening_session
      (mkTrkUser 1 [mkTrkTask "t1" "Buy milk" "pending" none] none
        [⟨"2025-01-01", 1, 5, 1, 1, 0, "", [], [], "medium", "ok"⟩])
      "2025-01-01" = false :=
  claim_C6_session_start_guard
    (mkTrkUser 1 [mkTrkTask "t1" "Buy milk" "pending" none] none
      [⟨"2025-01-01", 1, 5, 1, 1, 0, "", [], [], "medium", "ok"⟩])
    "2025-01-01" (Or.inl (by decide))

/-- C8 evaluated at the failing input: user 7 has onboarding completed
and the daily digest enabled; invoking the daily-digest job twice on the
same calendar date sends the digest twice — `NotificationManager` tracks
no last-sent marker, so nothing suppresses the second send.  (The claim
requires at most one send per user per date.) -/
theorem claim_C8_digest_sent_twice :
    Notif.digest_job_twice true [(7, mkDigestUserDict)] 0 = [7, 7] ∧
    (Notif.digest_job_twice true [(7, mkDigestUserDict)] 0).count 7 = 2 := by
  constructor <;> rfl

/-- `move_to_next_task` always advances the index by one. -/
theorem Trk.move_to_next_task_index (s : Trk.EveningSession) :
    (Trk.move_to_next_task s).current_task_index =
      s.current_task_index + 1 := by
  unfold Trk.move_to_next_task
  dsimp only
  split <;> rfl

/-- `move_to_next_task` leaves the review items unchanged. -/
theorem Trk.move_to_next_task_reviews (s : Trk.EveningSession) :
    (Trk.move_to_next_task s).task_reviews = s.task_reviews := by
  unfold Trk.move_to_next_task
  dsimp only
  split <;> rfl

/-- Past the last review item, `move_to_next_task` moves the state to
`gratitude`. -/
theorem Trk.move_to_next_task_gratitude (s : Trk.EveningSession)
    (h : s.task_reviews.length ≤ s.current_task_index + 1) :
    (Trk.move_to_next_task s).state = "gratitude" := by
  unfold Trk.move_to_next_task
  dsimp only
  rw [if_pos h]

/-- `handle_task_review`, first reply on a fresh item, negative outcome:
the reply is recorded as `progress_description`, `needs_help` is set,
and the index does not advance. -/
theorem Trk.handle_task_review_first_negative (s : Trk.EveningSession)
    (msg sup hlp : String) (r : Trk.TaskReviewItem)
    (hidx : s.task_reviews[s.current_task_index]? = some r)
    (hfresh : r.progress_description = "")
    (hneg : Trk.negativeReply msg = true) :
    Trk.handle_task_review s msg sup hlp = some
      { s with
        task_reviews := s.task_reviews.set s.current_task_index
          { r with progress_description := msg, ai_support := sup,
                   needs_help := true },
        ai_conversation := s.ai_conversation ++
          [⟨"user", msg⟩, ⟨"assistant", sup⟩] } := by
  unfold Trk.handle_task_review
  rw [hidx]
  dsimp only
  rw [if_pos hfresh, if_pos hneg]

/-- `handle_task_review`, first reply on a fresh item, progress
reported: the reply is recorded and the session advances. -/
theorem Trk.handle_task_review_first_progress (s : Trk.EveningSession)
    (msg sup hlp : String) (r : Trk.TaskReviewItem)
    (hidx : s.task_reviews[s.current_task_index]? = some r)
    (hfresh : r.progress_description = "")
    (hneg : Trk.negativeReply msg = false) :
    Trk.handle_task_review s msg sup hlp = some
      (Trk.move_to_next_task { s with
        task_reviews := s.task_reviews.set s.current_task_index
          { r with progress_description := msg, ai_support := sup },
        ai_conversation := s.ai_conversation ++
          [⟨"user", msg⟩, ⟨"assistant", sup⟩] }) := by
  unfold Trk.handle_task_review
  rw [hidx]
  dsimp only
  rw [if_pos hfresh, if_neg (by simp [hneg])]

/-- `handle_task_review`, help turn: with progress already recorded,
`needs_help` set and no help yet, the reply is captured as
`help_provided` and the session advances. -/
theorem Trk.handle_task_review_help (s : Trk.EveningSession)
    (msg sup hlp : String) (r : Trk.TaskReviewItem)
    (hidx : s.task_reviews[s.current_task_index]? = some r)
    (hprog : ¬ r.progress_description = "")
    (hneed : r.needs_help = true)
    (hprov : r.help_provided = "") :
    Trk.handle_task_review s msg sup hlp = some
      (Trk.move_to_next_task { s with
        task_reviews := s.task_reviews.set s.current_task_index
          { r with help_provided := msg },
        ai_conversation := s.ai_conversation ++
          [⟨"user", msg⟩, ⟨"assistant", hlp⟩] }) := by
  unfold Trk.handle_task_review
  rw [hidx]
  dsimp only
  rw [if_neg hprog, if_pos ⟨hneed, hprov⟩]

/-- C7: in the `task_review` state, for a fresh review item the first
user reply is recorded as `progress_description`; if that reply matches
the negative-outcome phrase set, `needs_help` is set and the index does
not advance until exactly one additional reply has been captured as
`help_provided`; otherwise the index advances immediately; in either
path, once the last review item is passed, the session state moves to
`gratitude`. -/
theorem claim_C7_task_review_flow (s : Trk.EveningSession)
    (msg sup hlp : String) (r : Trk.TaskReviewItem)
    (hidx : s.task_reviews[s.current_task_index]? = some r)
    (hfresh : r.progress_description = "")
    (hfresh2 : r.help_provided = "") :
    ∃ s', Trk.handle_task_review s msg sup hlp = some s' ∧
      (s'.task_reviews[s.current_task_index]?.map
        (fun x => x.progress_description)) = some msg ∧
      (Trk.negativeReply msg = false →
        s'.current_task_index = s.current_task_index + 1 ∧
        (s.task_reviews.length ≤ s.current_task_index + 1 →
          s'.state = "gratitude")) ∧
      (Trk.negativeReply msg = true →
        s'.current_task_index = s.current_task_index ∧
        (s'.task_reviews[s.current_task_index]?.map
          (fun x => x.needs_help)) = some true ∧
        ∀ msg2 sup2 hlp2, ∃ s'',
          Trk.handle_task_review s' msg2 sup2 hlp2 = some s'' ∧
          (s''.task_reviews[s.current_task_index]?.map
            (fun x => x.help_provided)) = some msg2 ∧
          s''.current_task_index = s.current_task_index + 1 ∧
          (s.task_reviews.length ≤ s.current_task_index + 1 →
            s''.state = "gratitude")) := by
  have hlt : s.current_task_index < s.task_reviews.length := by
    by_contra hge
    rw [List.getElem?_eq_none (by omega)] at hidx
    exact Option.noConfusion hidx
  by_cases hneg : Trk.negativeReply msg = true
  · -- negative-outcome branch
    have hmsg : ¬ msg = "" := by
      intro h0
      rw [h0] at hneg
      exact absurd hneg (by decide)
    refine ⟨_,
      Trk.handle_task_review_first_negative s msg sup hlp r hidx hfresh hneg,
      ?_, ?_, ?_⟩
    · dsimp only
      rw [List.getElem?_set_eq_of_lt _ hlt]
      rfl
    · intro hcon
      rw [hneg] at hcon
      exact Bool.noConfusion hcon
    · intro _
      refine ⟨rfl, ?_, ?_⟩
      · dsimp only
        rw [List.getElem?_set_eq_of_lt _ hlt]
        rfl
      · intro msg2 sup2 hlp2
        refine ⟨_,
          Trk.handle_task_review_help _ msg2 sup2 hlp2
            { r with progress_description := msg, ai_support := sup,
                     needs_help := true }
            (by dsimp only; exact List.getElem?_set_eq_of_lt _ hlt)
            (by dsimp only; exact hmsg) rfl (by dsimp only; exact hfresh2),
          ?_, ?_, ?_⟩
        · rw [Trk.move_to_next_task_reviews]
          dsimp only
          rw [List.set_set]
          rw [List.getElem?_set_eq_of_lt _ hlt]
          rfl
        · rw [Trk.move_to_next_task_index]
        · intro hlast
          apply Trk.move_to_next_task_gratitude
          dsimp only
          simp only [List.length_set]
          exact hlast
  · -- progress-reported branch
    rw [Bool.not_eq_true] at hneg
    refine ⟨_,
      Trk.handle_task_review_first_progress s msg sup hlp r hidx hfresh hneg,
      ?_, ?_, ?_⟩
    · rw [Trk.move_to_next_task_reviews]
      dsimp only
      rw [List.getElem?_set_eq_of_lt _ hlt]
      rfl
    · intro _
      refine ⟨?_, ?_⟩
      · rw [Trk.move_to_next_task_index]
      · intro hlast
        apply Trk.move_to_next_task_gratitude
        dsimp only
        simp only [List.length_set]
        exact hlast
    · intro hcon
      rw [hneg] at hcon
      exact Bool.noConfusion hcon

/-- Witness for C7: a one-item session with a fresh review item, first
reply "сделал" (progress reported). -/
theorem claim_C7_task_review_flow_witness :
    ∃ s', Trk.handle_task_review (mkSession "2025-01-01") "сделал" "x" "y" =
        some s' ∧
      (s'.task_reviews[(mkSession "2025-01-01").current_task_index]?.map
        (fun x => x.progress_description)) = some "сделал" ∧
      (Trk.negativeReply "сделал" = false →
        s'.current_task_index =
          (mkSession "2025-01-01").current_task_index + 1 ∧
        ((mkSession "2025-01-01").task_reviews.length ≤
          (mkSession "2025-01-01").current_task_index + 1 →
          s'.state = "gratitude")) ∧
      (Trk.negativeReply "сделал" = true →
        s'.current_task_index = (mkSession "2025-01-01").current_task_index ∧
        (s'.task_reviews[(mkSession "2025-01-01").current_task_index]?.map
          (fun x => x.needs_help)) = some true ∧
        ∀ msg2 sup2 hlp2, ∃ s'',
          Trk.handle_task_review s' msg2 sup2 hlp2 = some s'' ∧
          (s''.task_reviews[(mkSession "2025-01-01").current_task_index]?.map
            (fun x => x.help_provided)) = some msg2 ∧
          s''.current_task_index =
            (mkSession "2025-01-01").current_task_index + 1 ∧
          ((mkSession "2025-01-01").task_reviews.length ≤
            (mkSession "2025-01-01").current_task_index + 1 →
            s''.state = "gratitude")) :=
  claim_C7_task_review_flow (mkSession "2025-01-01") "сделал" "x" "y"
    (Trk.freshReviewItem "t1" "Buy milk") (by decide) (by decide) (by decide)

/-- The search branch of `_delete_task` never changes the task table. -/
theorem Agents.delete_task_search_preserves (tbl : DB.Table)
    (user_id : Int) (raw : String) :
    (Agents.delete_task
      { user_id := user_id, task_id := none, search_text := some raw }
      tbl).2 = tbl := by
  unfold Agents.delete_task
  dsimp only
  split
  · rfl
  · split <;> rfl

/-- Search branch with no tasks at all: the no-tasks message. -/
theorem Agents.delete_task_search_empty (tbl : DB.Table) (user_id : Int)
    (raw : String) (h : DB.get_tasks tbl user_id = []) :
    Agents.delete_task
      { user_id := user_id, task_id := none, search_text := some raw } tbl =
      (Agents.DeleteResp.noTasks, tbl) := by
  unfold Agents.delete_task
  dsimp only
  rw [h]
  rfl

/-- Search branch, zero matches among a non-empty task list:
suggestions from the user's current tasks. -/
theorem Agents.delete_task_search_zero (tbl : DB.Table) (user_id : Int)
    (raw : String) (h : ¬ DB.get_tasks tbl user_id = [])
    (hm : (DB.get_tasks tbl user_id).filter
      (Agents.taskMatchesSearch (pyLower raw)) = []) :
    Agents.delete_task
      { user_id := user_id, task_id := none, search_text := some raw } tbl =
      (Agents.DeleteResp.suggestions ((DB.get_tasks tbl user_id).take 5)
        (DB.get_tasks tbl user_id).length, tbl) := by
  unfold Agents.delete_task
  dsimp only
  rw [if_neg (by simpa [List.isEmpty_iff] using h)]
  rw [hm]

/-- Search branch, exactly one match: the confirmation request. -/
theorem Agents.delete_task_search_one (tbl : DB.Table) (user_id : Int)
    (raw : String) (t : DB.Task)
    (hm : (DB.get_tasks tbl user_id).filter
      (Agents.taskMatchesSearch (pyLower raw)) = [t]) :
    Agents.delete_task
      { user_id := user_id, task_id := none, search_text := some raw } tbl =
      (Agents.DeleteResp.confirmRequest t, tbl) := by
  have h : ¬ DB.get_tasks tbl user_id = [] := by
    intro h0
    rw [h0] at hm
    exact List.noConfusion hm
  unfold Agents.delete_task
  dsimp only
  rw [if_neg (by simpa [List.isEmpty_iff] using h)]
  rw [hm]

/-- Search branch, two or more matches: the disambiguation list. -/
theorem Agents.delete_task_search_many (tbl : DB.Table) (user_id : Int)
    (raw : String) (m1 m2 : DB.Task) (rest : List DB.Task)
    (hm : (DB.get_tasks tbl user_id).filter
      (Agents.taskMatchesSearch (pyLower raw)) = m1 :: m2 :: rest) :
    Agents.delete_task
      { user_id := user_id, task_id := none, search_text := some raw } tbl =
      (Agents.DeleteResp.disambiguation ((m1 :: m2 :: rest).take 10)
        (m1 :: m2 :: rest).length, tbl) := by
  have h : ¬ DB.get_tasks tbl user_id = [] := by
    intro h0
    rw [h0] at hm
    exact List.noConfusion hm
  unfold Agents.delete_task
  dsimp only
  rw [if_neg (by simpa [List.isEmpty_iff] using h)]
  rw [hm]

/-- C1: a delete-by-phrase request (the `search_text` branch of
`_delete_task`) never mutates the task store, and its reply depends only
on match cardinality: no tasks → the no-tasks message; 0 matches among
existing tasks → suggestions drawn from the user's current task list;
exactly 1 match → a confirmation request surfacing that task's details
and id; more than 1 match → a disambiguation list capped at 10 entries. -/
theorem claim_C1_delete_by_phrase (tbl : DB.Table) (user_id : Int)
    (raw : String) :
    (Agents.delete_task
      { user_id := user_id, task_id := none, search_text := some raw }
      tbl).2 = tbl ∧
    (DB.get_tasks tbl user_id = [] →
      Agents.delete_task
        { user_id := user_id, task_id := none, search_text := some raw }
        tbl = (Agents.DeleteResp.noTasks, tbl)) ∧
    (DB.get_tasks tbl user_id ≠ [] →
      Agents.matching_tasks tbl user_id (pyLower raw) = [] →
      Agents.delete_task
        { user_id := user_id, task_id := none, search_text := some raw }
        tbl =
        (Agents.DeleteResp.suggestions ((DB.get_tasks tbl user_id).take 5)
          (DB.get_tasks tbl user_id).length, tbl)) ∧
    (∀ t, Agents.matching_tasks tbl user_id (pyLower raw) = [t] →
      Agents.delete_task
        { user_id := user_id, task_id := none, search_text := some raw }
        tbl = (Agents.DeleteResp.confirmRequest t, tbl)) ∧
    (2 ≤ (Agents.matching_tasks tbl user_id (pyLower raw)).length →
      Agents.delete_task
        { user_id := user_id, task_id := none, search_text := some raw }
        tbl =
        (Agents.DeleteResp.disambiguation
          ((Agents.matching_tasks tbl user_id (pyLower raw)).take 10)
          (Agents.matching_tasks tbl user_id (pyLower raw)).length, tbl) ∧
      ((Agents.matching_tasks tbl user_id (pyLower raw)).take 10).length
        ≤ 10) := by
  refine ⟨Agents.delete_task_search_preserves tbl user_id raw,
    fun h => Agents.delete_task_search_empty tbl user_id raw h,
    fun h hm => Agents.delete_task_search_zero tbl user_id raw h
      (by simpa [Agents.matching_tasks] using hm),
    fun t hm => Agents.delete_task_search_one tbl user_id raw t
      (by simpa [Agents.matching_tasks] using hm),
    fun h2 => ?_⟩
  rcases hm : Agents.matching_tasks tbl user_id (pyLower raw) with - | ⟨m1, mrest⟩
  · rw [hm] at h2
    exact absurd h2 (by simp)
  · rcases mrest with - | ⟨m2, rest⟩
    · rw [hm] at h2
      exact absurd h2 (by simp)
    · have hm' : (DB.get_tasks tbl user_id).filter
          (Agents.taskMatchesSearch (pyLower raw)) = m1 :: m2 :: rest := by
        simpa [Agents.matching_tasks] using hm
      refine ⟨Agents.delete_task_search_many tbl user_id raw m1 m2 rest hm', ?_⟩
      simp [List.length_take]

/-- Witness for C1: user 1 owns "Buy milk" and "Call bank"; the phrase
"milk" matches exactly one task, so the handler returns a confirmation
request for it and the table is unchanged. -/
theorem claim_C1_delete_by_phrase_witness :
    Agents.delete_task
      { user_id := 1, task_id := none, search_text := some "milk" }
      [mkDbTask "aaa" 1 "Buy milk" "pending" 20,
       mkDbTask "bbb" 1 "Call bank" "pending" 10] =
      (Agents.DeleteResp.confirmRequest
        (mkDbTask "aaa" 1 "Buy milk" "pending" 20),
       [mkDbTask "aaa" 1 "Buy milk" "pending" 20,
        mkDbTask "bbb" 1 "Call bank" "pending" 10]) :=
  (claim_C1_delete_by_phrase
    [mkDbTask "aaa" 1 "Buy milk" "pending" 20,
     mkDbTask "bbb" 1 "Call bank" "pending" 10] 1 "milk").2.2.2.1
    (mkDbTask "aaa" 1 "Buy milk" "pending" 20) (by decide)

/-- C2: for every message the orchestrator classifies as a deletion
confirmation, when no task id can be extracted from the message the
routing outcome is `rerunResolution intentAnalysis` — the intent
resolver is re-run with a context carrying no task id, so no deletion is
executed directly and no task (in particular not the most recent one) is
deleted by default; conversely, the direct-deletion confirmation branch
is reached only when a surfaced task id is present in the message. -/
theorem claim_C2_no_default_deletion (user_id : Int) (message : String)
    (tbl : DB.Table)
    (hconf : Agents.is_deletion_confirmation message = true) :
    (Agents.extract_task_id_from_message message = none →
      Agents.route_request user_id message tbl =
        Agents.RouteOutcome.rerunResolution
          Agents.ProcOutcome.intentAnalysis) ∧
    (∀ out, Agents.route_request user_id message tbl =
        Agents.RouteOutcome.confirmedDeletion out →
      (Agents.extract_task_id_from_message message).isSome = true) := by
  constructor
  · intro hnone
    unfold Agents.route_request
    rw [if_pos hconf, hnone]
    rfl
  · intro out hout
    unfold Agents.route_request at hout
    rw [if_pos hconf] at hout
    cases hid : Agents.extract_task_id_from_message message with
    | none =>
      rw [hid] at hout
      exact absurd hout (by simp)
    | some tid => simp [hid]

/-- Witness for C2: the bare affirmative "да" is classified as a
deletion confirmation, carries no task id, and is routed to intent
re-resolution — the task store is not touched. -/
theorem claim_C2_no_default_deletion_witness :
    Agents.route_request 1 "да"
      [mkDbTask "aaa" 1 "Buy milk" "pending" 20] =
      Agents.RouteOutcome.rerunResolution
        Agents.ProcOutcome.intentAnalysis :=
  (claim_C2_no_default_deletion 1 "да"
    [mkDbTask "aaa" 1 "Buy milk" "pending" 20] (by decide)).1 (by decide)
